import Mathlib

set_option maxRecDepth 100000

/-!
Verification development for the AI Quick Notes application: a shallow
embedding of the prompt dispatcher in services/geminiService.ts and of the
markdown-subset renderer and saved-note handlers in the main application
component, together with theorems settling the specified properties.
-/

/-- Modelled from the spec: the ProcessMode enumeration is declared in the
file types.ts, which is not among the available sources. The spec fixes the
members as SUMMARIZE, KEY_POINTS and SIMPLIFY. The extra constructor stands
for runtime values outside the declared enumeration (reachable in TypeScript
through casts), which the default branch of getPrompt handles by throwing. -/
inductive ProcessMode where
  | SUMMARIZE
  | KEY_POINTS
  | SIMPLIFY
  | invalid (v : String)
  deriving DecidableEq, Repr

/-- A mode belonging to the declared enumeration. -/
def ProcessMode.isValid : ProcessMode → Bool
  | .SUMMARIZE => true
  | .KEY_POINTS => true
  | .SIMPLIFY => true
  | .invalid _ => false

/-- A JavaScript thrown value, as discriminated by the catch clause of
processTextWithGemini: either an Error instance carrying a message, or any
other value (carried here as an opaque string tag). -/
inductive Thrown where
  | jsError (message : String)
  | nonError (value : String)
  deriving DecidableEq, Repr

/-- One behaviour of the external generation boundary
(ai.models.generateContent): either it returns a response whose text field
is present or absent, or it throws. -/
inductive GenerateResult where
  | success (text : Option String)
  | thrown (e : Thrown)

/-- Embedding of getPrompt from services/geminiService.ts: the switch over
the mode builds one instruction template around the input text; the default
branch throws the Error with message "Invalid process mode". -/
def getPrompt (mode : ProcessMode) (text : String) : Except Thrown String :=
  match mode with
  | .SUMMARIZE => .ok ("Generate a concise summary of the following text. The summary should capture the main ideas and be significantly shorter than the original text:\n\n---\n" ++ text ++ "\n---")
  | .KEY_POINTS => .ok ("Extract the key points from the following text and present them as a clear, scannable bulleted list. Each bullet point should represent a distinct, important idea:\n\n---\n" ++ text ++ "\n---")
  | .SIMPLIFY => .ok ("Simplify the following text. Rephrase complex sentences, explain difficult words, and break down complicated concepts to make the content easy for a general audience to understand:\n\n---\n" ++ text ++ "\n---")
  | .invalid _ => .error (.jsError "Invalid process mode")

/-- Model of JavaScript String.prototype.trim over the character list of a
string: whitespace is removed from both ends. -/
def trimJS (s : String) : String :=
  String.mk (((s.data.dropWhile Char.isWhitespace).reverse.dropWhile Char.isWhitespace).reverse)

/-- Embedding of the try block of processTextWithGemini: build the prompt
(getPrompt may throw), call the boundary (which may throw), then throw on an
empty or absent text payload and otherwise return the trimmed payload. -/
def tryBlock (text : String) (mode : ProcessMode) (generateContent : String → GenerateResult) : Except Thrown String :=
  match getPrompt mode text with
  | .error e => .error e
  | .ok prompt =>
    match generateContent prompt with
    | .thrown e => .error e
    | .success resultText =>
      match resultText with
      | none => .error (.jsError "Received an empty response from the AI.")
      | some s =>
        if s = "" then .error (.jsError "Received an empty response from the AI.")
        else .ok (trimJS s)

/-- Embedding of the catch clause of processTextWithGemini: an Error
instance maps to the prefixed message, any other thrown value maps to the
fixed unknown-error string. -/
def catchClause : Thrown → String
  | .jsError msg => "An error occurred: " ++ msg
  | .nonError _ => "An unknown error occurred while contacting the AI."

/-- Embedding of processTextWithGemini from services/geminiService.ts: the
whole body runs inside a try whose catch converts every thrown value into a
returned string, so the function resolves with Except.ok in every case. -/
def processTextWithGemini (text : String) (mode : ProcessMode) (generateContent : String → GenerateResult) : Except Thrown String :=
  match tryBlock text mode generateContent with
  | .ok s => .ok s
  | .error e => .ok (catchClause e)

/-- The phrase, literally present in the corresponding instruction template,
that is specific to each valid processing mode. -/
def directivePhrase : ProcessMode → String
  | .SUMMARIZE => "concise summary"
  | .KEY_POINTS => "bulleted list"
  | .SIMPLIFY => "general audience"
  | .invalid _ => ""

/-- The pattern occurs contiguously inside the string. -/
def ContainsSubstr (s pat : String) : Prop :=
  ∃ a b : String, s = a ++ pat ++ b

/-- One display fragment produced by renderFormattedText, abstracting the
React elements it returns: strong for bold spans, em for italic spans, pre
for fenced code blocks, code for inline code, li for bullet list items, text
for a plain run, and br for an explicit line break. -/
inductive Fragment where
  | strong (s : String)
  | em (s : String)
  | pre (s : String)
  | code (s : String)
  | li (s : String)
  | text (s : String)
  | br
  deriving DecidableEq, Repr

/-- Lazy scan of a dot-star-question quantifier followed by a literal closing
delimiter: at each position the closing delimiter is tried first (shortest
match wins); when allowNl is false the scan fails at a newline, matching the
dot of a JavaScript regex, which does not cross lines. Returns the content
before the delimiter and the remainder after it. -/
def scanClose (close : List Char) (allowNl : Bool) : List Char → Option (List Char × List Char)
  | [] => none
  | c :: cs =>
    if (c :: cs).take close.length = close then
      some ([], (c :: cs).drop close.length)
    else if !allowNl && c = '\n' then none
    else
      match scanClose close allowNl cs with
      | some (content, rest) => some (c :: content, rest)
      | none => none

/-- One attempt of the splitting regex of renderFormattedText at the current
position. The alternatives are tried in the order they occur in the source:
single-star pair, double-star pair, single-backtick pair, triple-backtick
pair (the last with dots that may cross lines). Returns the matched span
with its delimiters and the remainder of the input. -/
def matchDelim (cs : List Char) : Option (List Char × List Char) :=
  match cs with
  | '*' :: rest =>
    match scanClose ['*'] false rest with
    | some (content, rest2) => some ('*' :: content ++ ['*'], rest2)
    | none =>
      match rest with
      | '*' :: rest2 =>
        match scanClose ['*', '*'] false rest2 with
        | some (content, rest3) => some ('*' :: '*' :: content ++ ['*', '*'], rest3)
        | none => none
      | _ => none
  | '`' :: rest =>
    match scanClose ['`'] false rest with
    | some (content, rest2) => some ('`' :: content ++ ['`'], rest2)
    | none =>
      match rest with
      | '`' :: '`' :: rest2 =>
        match scanClose ['`', '`', '`'] true rest2 with
        | some (content, rest3) => some ('`' :: '`' :: '`' :: content ++ ['`', '`', '`'], rest3)
        | none => none
      | _ => none
  | _ => none

/-- Scanning loop of String.prototype.split with a capturing group: the text
between matches and every matched span are both kept, in order, and empty
between-match sections are kept as well. The fuel argument is initialised to
the length of the input; every step consumes at least one character, so the
zero-fuel fallback is never reached from renderFormattedText. -/
def splitGo : Nat → List Char → List Char → List (List Char)
  | _, acc, [] => [acc.reverse]
  | 0, acc, cs => [acc.reverse ++ cs]
  | fuel + 1, acc, c :: rest =>
    match matchDelim (c :: rest) with
    | some (m, r) => acc.reverse :: m :: splitGo fuel [] r
    | none => splitGo fuel (c :: acc) rest

/-- Model of String.prototype.split on the newline character: every newline
separates, an empty input yields one empty piece, and a trailing newline
yields a trailing empty piece. -/
def splitOnNl : List Char → List (List Char)
  | [] => [[]]
  | c :: cs =>
    if c = '\n' then [] :: splitOnNl cs
    else
      match splitOnNl cs with
      | l :: ls => (c :: l) :: ls
      | [] => [[c]]

/-- The section begins with the given characters. -/
def startsWithL (pre cs : List Char) : Bool :=
  cs.take pre.length == pre

/-- The section ends with the given characters. -/
def endsWithL (suf cs : List Char) : Bool :=
  (cs.reverse.take suf.length).reverse == suf

/-- Model of JavaScript slice with a nonnegative start and a negative end:
drop a characters at the front and b characters at the back, clamping to the
empty string exactly as slice does. -/
def sliceJS (cs : List Char) (a b : Nat) : List Char :=
  (cs.drop a).take (cs.length - a - b)

/-- The plain-text fallback of renderFormattedText: the section is split on
newlines and rendered as text runs with a break after every line except the
last. -/
def plainFrags : List (List Char) → List Fragment
  | [] => []
  | [l] => [.text (String.mk l)]
  | l :: ls => .text (String.mk l) :: .br :: plainFrags ls

/-- The per-section mapping of renderFormattedText, with the branches in
source order: double-star span, single-star span, triple-backtick span,
single-backtick span, star bullet, dash bullet, and the plain-text line
fallback. -/
def renderSection (cs : List Char) : List Fragment :=
  if startsWithL ['*', '*'] cs && endsWithL ['*', '*'] cs then
    [.strong (String.mk (sliceJS cs 2 2))]
  else if startsWithL ['*'] cs && endsWithL ['*'] cs then
    [.em (String.mk (sliceJS cs 1 1))]
  else if startsWithL ['`', '`', '`'] cs && endsWithL ['`', '`', '`'] cs then
    [.pre (trimJS (String.mk (sliceJS cs 3 3)))]
  else if startsWithL ['`'] cs && endsWithL ['`'] cs then
    [.code (String.mk (sliceJS cs 1 1))]
  else if startsWithL ['*', ' '] cs then
    [.li (String.mk (cs.drop 2))]
  else if startsWithL ['-', ' '] cs then
    [.li (String.mk (cs.drop 2))]
  else
    plainFrags (splitOnNl cs)

/-- Embedding of renderFormattedText from the application component: the
input is split by the delimiter regex into sections and every section is
mapped to its fragments. -/
def renderFormattedText (text : String) : List Fragment :=
  ((splitGo text.data.length [] text.data).map renderSection).flatten

/-- Embedding of the SavedNote record from the data model: identifier, input
text, output text, mode and display-formatted timestamp. -/
structure SavedNote where
  id : String
  input : String
  output : String
  mode : ProcessMode
  timestamp : String
  deriving DecidableEq, Repr

/-- The part of the application state the saved-note handlers touch: the
savedNotes component state and the local-storage slot, which the effect hook
overwrites with the serialised collection after every change. -/
structure AppState where
  savedNotes : List SavedNote
  store : List SavedNote
  deriving DecidableEq, Repr

/-- The effect hook on savedNotes: the full current collection is written to
the local-storage slot. -/
def persistNotes (s : AppState) : AppState :=
  { s with store := s.savedNotes }

/-- Embedding of handleSaveNote: with no output text or no current mode it
returns unchanged; otherwise the new note, built from the current input,
output, mode and the fresh identifier and timestamp, is put at the front of
the collection, and the effect hook persists the updated collection. -/
def handleSaveNote (inputText outputText : String) (currentMode : Option ProcessMode) (idToken timestamp : String) (s : AppState) : AppState :=
  if outputText = "" then s
  else
    match currentMode with
    | none => s
    | some m =>
      persistNotes { s with savedNotes := { id := idToken, input := inputText, output := outputText, mode := m, timestamp := timestamp } :: s.savedNotes }

/-- Embedding of handleDeleteNote: the collection is filtered to the notes
whose identifier differs from the given one, and the effect hook persists
the updated collection. -/
def handleDeleteNote (id : String) (s : AppState) : AppState :=
  persistNotes { s with savedNotes := s.savedNotes.filter (fun n => n.id != id) }

/-- Appending on both sides preserves substring containment. -/
theorem containsSubstr_extend (A t B pat : String) (h : ContainsSubstr A pat) :
    ContainsSubstr (A ++ t ++ B) pat := by
  obtain ⟨a, b, rfl⟩ := h
  exact ⟨a, b ++ t ++ B, by simp [String.append_assoc]⟩

/-- C1: on the input string with a bold span, an italic span and an inline
code span, the renderer does not produce the specified sequence with a bold
fragment of text bold: the single-star alternative of the splitting regex is
tried before the double-star one, so each double-star delimiter is consumed
as an empty single-star span, and the word bold comes out as a plain run
between two empty bold fragments. -/
theorem c1_render_actual :
    renderFormattedText "**bold** and *italic* and `code`" =
      [Fragment.text "", Fragment.strong "", Fragment.text "bold", Fragment.strong "",
       Fragment.text " and ", Fragment.em "italic", Fragment.text " and ",
       Fragment.code "code", Fragment.text ""] ∧
    Fragment.strong "bold" ∉ renderFormattedText "**bold** and *italic* and `code`" := by
  decide

/-- C2: the priority order claimed by the spec does not hold: at a position
where both the double-star and the single-star pattern could match, the
single-star alternative wins because it is listed first in the regex, and at
a position where both the triple-backtick and the single-backtick pattern
could match, the single-backtick alternative wins, so no bold fragment with
text bold and no fenced code block fragment is ever produced from these
inputs. -/
theorem c2_priority_actual :
    (renderFormattedText "**bold**" =
      [Fragment.text "", Fragment.strong "", Fragment.text "bold", Fragment.strong "",
       Fragment.text ""] ∧
     Fragment.strong "bold" ∉ renderFormattedText "**bold**") ∧
    (renderFormattedText "```a```" =
      [Fragment.text "", Fragment.code "", Fragment.text "", Fragment.code "a",
       Fragment.text "", Fragment.code "", Fragment.text ""] ∧
     Fragment.pre "a" ∉ renderFormattedText "```a```") := by
  decide

/-- C3 counterexample: on the two-line bullet input the renderer produces
neither a list-item fragment with text one nor one with text two, because
the bullet check runs on the whole unmatched segment, not per line. -/
theorem c3_counterexample :
    Fragment.li "one" ∉ renderFormattedText "* one\n* two" ∧
    Fragment.li "two" ∉ renderFormattedText "* one\n* two" := by
  decide

/-- C3 amended: the bullet-prefix rule applies per split segment, not per
line: the two-line bullet input is a single unmatched segment, so the
renderer produces exactly one list-item fragment whose text is the whole
remainder of the segment after the stripped marker, later lines included. -/
theorem c3_amended :
    renderFormattedText "* one\n* two" = [Fragment.li "one\n* two"] := by
  decide

/-- C4: when the boundary throws a value that is not an Error instance, the
dispatcher returns the fixed unknown-error string, which does not begin with
the prefix An error occurred:, so the single fixed prefix check does not
recognise this failure; when the boundary throws an Error, the failure does
carry the prefix followed by the thrown message. -/
theorem c4_prefix_gap :
    (processTextWithGemini "hi" ProcessMode.SUMMARIZE
        (fun _ => GenerateResult.thrown (Thrown.nonError "boom")) =
      Except.ok "An unknown error occurred while contacting the AI." ∧
     startsWithL "An error occurred:".data
        "An unknown error occurred while contacting the AI.".data = false) ∧
    (processTextWithGemini "hi" ProcessMode.SUMMARIZE
        (fun _ => GenerateResult.thrown (Thrown.jsError "network down")) =
      Except.ok "An error occurred: network down" ∧
     startsWithL "An error occurred:".data "An error occurred: network down".data = true) :=
  ⟨⟨rfl, by decide⟩, ⟨rfl, by decide⟩⟩

/-- C5 counterexample: calling the dispatcher with a mode outside the
declared enumeration does not let an exception escape: getPrompt throws
inside the try block, the catch converts it, and the dispatcher resolves
with the user-facing error string. -/
theorem c5_counterexample :
    processTextWithGemini "hello" (ProcessMode.invalid "OTHER")
        (fun _ => GenerateResult.success (some "ok")) =
      Except.ok "An error occurred: Invalid process mode" := rfl

/-- C5 amended: for every mode value outside the declared enumeration,
every input text and every boundary behaviour, the dispatcher catches the
exception thrown by getPrompt and resolves with the user-facing string
An error occurred: Invalid process mode; no exception escapes to the
caller. -/
theorem c5_amended (v text : String) (generateContent : String → GenerateResult) :
    processTextWithGemini text (ProcessMode.invalid v) generateContent =
      Except.ok "An error occurred: Invalid process mode" := rfl

/-- C6: for every valid mode and input text, a boundary response whose text
payload is absent or empty makes the dispatcher resolve with the failure
string An error occurred: Received an empty response from the AI., which
contains the phrase empty response and is not the empty payload returned as
success. -/
theorem c6_empty_response (mode : ProcessMode) (hm : mode.isValid = true) (text : String)
    (payload : Option String) (hp : payload = none ∨ payload = some "") :
    processTextWithGemini text mode (fun _ => GenerateResult.success payload) =
      Except.ok "An error occurred: Received an empty response from the AI." ∧
    ContainsSubstr "An error occurred: Received an empty response from the AI." "empty response" ∧
    "An error occurred: Received an empty response from the AI." ≠ "" := by
  refine ⟨?_, ⟨"An error occurred: Received an ", " from the AI.", by decide⟩, by decide⟩
  cases mode with
  | SUMMARIZE => rcases hp with h | h <;> subst h <;> rfl
  | KEY_POINTS => rcases hp with h | h <;> subst h <;> rfl
  | SIMPLIFY => rcases hp with h | h <;> subst h <;> rfl
  | invalid v => simp [ProcessMode.isValid] at hm

/-- C6 witness: the statement of c6_empty_response instantiated at the
SUMMARIZE mode, a concrete input and the empty payload. -/
theorem c6_empty_response_witness :
    processTextWithGemini "hi" ProcessMode.SUMMARIZE (fun _ => GenerateResult.success (some "")) =
      Except.ok "An error occurred: Received an empty response from the AI." ∧
    ContainsSubstr "An error occurred: Received an empty response from the AI." "empty response" ∧
    "An error occurred: Received an empty response from the AI." ≠ "" :=
  c6_empty_response ProcessMode.SUMMARIZE (by decide) "hi" (some "") (Or.inr rfl)

/-- C7: for every valid mode and input text, a boundary success with a
non-empty text payload makes the dispatcher resolve with exactly that
payload, trimmed of surrounding whitespace. -/
theorem c7_success_trims (mode : ProcessMode) (hm : mode.isValid = true) (text s : String)
    (hs : s ≠ "") :
    processTextWithGemini text mode (fun _ => GenerateResult.success (some s)) =
      Except.ok (trimJS s) := by
  cases mode with
  | SUMMARIZE => simp [processTextWithGemini, tryBlock, getPrompt, hs]
  | KEY_POINTS => simp [processTextWithGemini, tryBlock, getPrompt, hs]
  | SIMPLIFY => simp [processTextWithGemini, tryBlock, getPrompt, hs]
  | invalid v => simp [ProcessMode.isValid] at hm

/-- C7 witness: the statement of c7_success_trims instantiated at the
KEY_POINTS mode, a concrete input and a payload with surrounding whitespace,
whose trimmed form is evaluated. -/
theorem c7_success_trims_witness :
    processTextWithGemini "t" ProcessMode.KEY_POINTS (fun _ => GenerateResult.success (some " hi ")) =
      Except.ok (trimJS " hi ") ∧ trimJS " hi " = "hi" :=
  ⟨c7_success_trims ProcessMode.KEY_POINTS (by decide) "t" " hi " (by decide), by decide⟩

/-- C8: for every valid mode and non-empty input text, getPrompt succeeds
with an instruction string that contains the input text verbatim together
with the directive phrase specific to that mode. -/
theorem c8_prompt_contains (mode : ProcessMode) (hm : mode.isValid = true) (text : String)
    (ht : text ≠ "") :
    ∃ p : String, getPrompt mode text = Except.ok p ∧
      ContainsSubstr p text ∧ ContainsSubstr p (directivePhrase mode) := by
  cases mode with
  | SUMMARIZE =>
    refine ⟨_, rfl, ⟨_, _, rfl⟩, ?_⟩
    exact containsSubstr_extend _ text _ _ ⟨"Generate a ", " of the following text. The summary should capture the main ideas and be significantly shorter than the original text:\n\n---\n", by decide⟩
  | KEY_POINTS =>
    refine ⟨_, rfl, ⟨_, _, rfl⟩, ?_⟩
    exact containsSubstr_extend _ text _ _ ⟨"Extract the key points from the following text and present them as a clear, scannable ", ". Each bullet point should represent a distinct, important idea:\n\n---\n", by decide⟩
  | SIMPLIFY =>
    refine ⟨_, rfl, ⟨_, _, rfl⟩, ?_⟩
    exact containsSubstr_extend _ text _ _ ⟨"Simplify the following text. Rephrase complex sentences, explain difficult words, and break down complicated concepts to make the content easy for a ", " to understand:\n\n---\n", by decide⟩
  | invalid v => simp [ProcessMode.isValid] at hm

/-- C8 witness: the statement of c8_prompt_contains instantiated at the
SUMMARIZE mode and a concrete non-empty input. -/
theorem c8_prompt_contains_witness :
    ∃ p : String, getPrompt ProcessMode.SUMMARIZE "hello" = Except.ok p ∧
      ContainsSubstr p "hello" ∧ ContainsSubstr p (directivePhrase ProcessMode.SUMMARIZE) :=
  c8_prompt_contains ProcessMode.SUMMARIZE (by decide) "hello" (by decide)

/-- C10: for every input text, every mode value and every boundary
behaviour, the dispatcher resolves with a string: every thrown value is
converted by the catch clause and no exception escapes. -/
theorem c10_always_resolves (text : String) (mode : ProcessMode)
    (generateContent : String → GenerateResult) :
    ∃ s : String, processTextWithGemini text mode generateContent = Except.ok s := by
  cases h : tryBlock text mode generateContent with
  | ok s => exact ⟨s, by simp [processTextWithGemini, h]⟩
  | error e => exact ⟨catchClause e, by simp [processTextWithGemini, h]⟩

/-- Filtering out an identifier that no note of the list carries leaves the
list unchanged. -/
theorem filter_ne_id_of_not_mem (i : String) (l : List SavedNote)
    (h : i ∉ l.map SavedNote.id) :
    l.filter (fun n => n.id != i) = l := by
  refine List.filter_eq_self.mpr ?_
  intro a ha
  simp only [bne_iff_ne, ne_eq]
  intro hai
  exact h (List.mem_map.mpr ⟨a, ha, hai⟩)

/-- Deleting by the identifier of one note of a collection with pairwise
distinct identifiers removes exactly that note, keeping every other note in
its original order. -/
theorem filter_delete_split (l1 l2 : List SavedNote) (n : SavedNote)
    (hnodup : ((l1 ++ n :: l2).map SavedNote.id).Nodup) :
    (l1 ++ n :: l2).filter (fun x => x.id != n.id) = l1 ++ l2 := by
  rw [List.map_append, List.map_cons, List.nodup_append] at hnodup
  obtain ⟨h1, h2, hdisj⟩ := hnodup
  have hn2 : n.id ∉ l2.map SavedNote.id := (List.nodup_cons.mp h2).1
  have hn1 : n.id ∉ l1.map SavedNote.id := fun hmem =>
    hdisj hmem (List.mem_cons_self n.id (l2.map SavedNote.id))
  rw [List.filter_append, List.filter_cons, filter_ne_id_of_not_mem n.id l1 hn1,
    filter_ne_id_of_not_mem n.id l2 hn2]
  simp

/-- C9: saving a note after a successful result puts the new note at the
front of the saved-notes collection and the effect hook persists the full
updated collection to the store; deleting by the identifier of one note of a
collection with pairwise distinct identifiers removes exactly that note,
leaves every other note unchanged, and persists the updated collection. -/
theorem c9_save_delete (st : AppState) (inputText outputText idToken timestamp : String)
    (m : ProcessMode) (hout : outputText ≠ "")
    (l1 l2 : List SavedNote) (n : SavedNote) (hsplit : st.savedNotes = l1 ++ n :: l2)
    (hnodup : (st.savedNotes.map SavedNote.id).Nodup) :
    ((handleSaveNote inputText outputText (some m) idToken timestamp st).savedNotes =
        { id := idToken, input := inputText, output := outputText, mode := m,
          timestamp := timestamp } :: st.savedNotes ∧
      (handleSaveNote inputText outputText (some m) idToken timestamp st).store =
        (handleSaveNote inputText outputText (some m) idToken timestamp st).savedNotes) ∧
    ((handleDeleteNote n.id st).savedNotes = l1 ++ l2 ∧
      (handleDeleteNote n.id st).store = (handleDeleteNote n.id st).savedNotes) := by
  rw [hsplit] at hnodup
  refine ⟨⟨?_, ?_⟩, ?_, ?_⟩
  · simp [handleSaveNote, persistNotes, hout]
  · simp [handleSaveNote, persistNotes, hout]
  · have hdel : (handleDeleteNote n.id st).savedNotes =
        (l1 ++ n :: l2).filter (fun x => x.id != n.id) := by
      rw [← hsplit]
      rfl
    rw [hdel]
    exact filter_delete_split l1 l2 n hnodup
  · rfl

/-- C9 witness: the statement of c9_save_delete instantiated at a concrete
two-note state, saving a concrete note and deleting the first note. -/
theorem c9_save_delete_witness :
    ((handleSaveNote "in" "out" (some ProcessMode.SUMMARIZE) "3" "ts"
        ⟨[{ id := "1", input := "i1", output := "o1", mode := ProcessMode.SUMMARIZE, timestamp := "t1" },
          { id := "2", input := "i2", output := "o2", mode := ProcessMode.SIMPLIFY, timestamp := "t2" }],
         [{ id := "1", input := "i1", output := "o1", mode := ProcessMode.SUMMARIZE, timestamp := "t1" },
          { id := "2", input := "i2", output := "o2", mode := ProcessMode.SIMPLIFY, timestamp := "t2" }]⟩).savedNotes =
        { id := "3", input := "in", output := "out", mode := ProcessMode.SUMMARIZE, timestamp := "ts" } ::
          [{ id := "1", input := "i1", output := "o1", mode := ProcessMode.SUMMARIZE, timestamp := "t1" },
           { id := "2", input := "i2", output := "o2", mode := ProcessMode.SIMPLIFY, timestamp := "t2" }] ∧
      (handleSaveNote "in" "out" (some ProcessMode.SUMMARIZE) "3" "ts"
        ⟨[{ id := "1", input := "i1", output := "o1", mode := ProcessMode.SUMMARIZE, timestamp := "t1" },
          { id := "2", input := "i2", output := "o2", mode := ProcessMode.SIMPLIFY, timestamp := "t2" }],
         [{ id := "1", input := "i1", output := "o1", mode := ProcessMode.SUMMARIZE, timestamp := "t1" },
          { id := "2", input := "i2", output := "o2", mode := ProcessMode.SIMPLIFY, timestamp := "t2" }]⟩).store =
      (handleSaveNote "in" "out" (some ProcessMode.SUMMARIZE) "3" "ts"
        ⟨[{ id := "1", input := "i1", output := "o1", mode := ProcessMode.SUMMARIZE, timestamp := "t1" },
          { id := "2", input := "i2", output := "o2", mode := ProcessMode.SIMPLIFY, timestamp := "t2" }],
         [{ id := "1", input := "i1", output := "o1", mode := ProcessMode.SUMMARIZE, timestamp := "t1" },
          { id := "2", input := "i2", output := "o2", mode := ProcessMode.SIMPLIFY, timestamp := "t2" }]⟩).savedNotes) ∧
    ((handleDeleteNote "1"
        ⟨[{ id := "1", input := "i1", output := "o1", mode := ProcessMode.SUMMARIZE, timestamp := "t1" },
          { id := "2", input := "i2", output := "o2", mode := ProcessMode.SIMPLIFY, timestamp := "t2" }],
         [{ id := "1", input := "i1", output := "o1", mode := ProcessMode.SUMMARIZE, timestamp := "t1" },
          { id := "2", input := "i2", output := "o2", mode := ProcessMode.SIMPLIFY, timestamp := "t2" }]⟩).savedNotes =
        [] ++ [{ id := "2", input := "i2", output := "o2", mode := ProcessMode.SIMPLIFY, timestamp := "t2" }] ∧
      (handleDeleteNote "1"
        ⟨[{ id := "1", input := "i1", output := "o1", mode := ProcessMode.SUMMARIZE, timestamp := "t1" },
          { id := "2", input := "i2", output := "o2", mode := ProcessMode.SIMPLIFY, timestamp := "t2" }],
         [{ id := "1", input := "i1", output := "o1", mode := ProcessMode.SUMMARIZE, timestamp := "t1" },
          { id := "2", input := "i2", output := "o2", mode := ProcessMode.SIMPLIFY, timestamp := "t2" }]⟩).store =
      (handleDeleteNote "1"
        ⟨[{ id := "1", input := "i1", output := "o1", mode := ProcessMode.SUMMARIZE, timestamp := "t1" },
          { id := "2", input := "i2", output := "o2", mode := ProcessMode.SIMPLIFY, timestamp := "t2" }],
         [{ id := "1", input := "i1", output := "o1", mode := ProcessMode.SUMMARIZE, timestamp := "t1" },
          { id := "2", input := "i2", output := "o2", mode := ProcessMode.SIMPLIFY, timestamp := "t2" }]⟩).savedNotes) :=
  c9_save_delete _ "in" "out" "3" "ts" ProcessMode.SUMMARIZE (by decide) []
    [{ id := "2", input := "i2", output := "o2", mode := ProcessMode.SIMPLIFY, timestamp := "t2" }]
    { id := "1", input := "i1", output := "o1", mode := ProcessMode.SUMMARIZE, timestamp := "t1" }
    rfl (by decide)
